import Mathlib

/-!
Verification of the data-pairing pipeline of src/main.py.

Shallow embedding of the core pipeline of `src/main.py`:
load the Items table (`pd.read_excel(file1, dtype={'VBU': str})`, line 93),
validate its columns (lines 97-100), check the wide region table is
non-empty (lines 102-104), melt the wide region table to long form and
drop blank cells (lines 108-109), left-merge items with the long region
table on the `Region` column and drop unmatched rows (lines 113-114),
project the output columns (line 117), and group by `Region` into one
sheet per group with the sheet name truncated to 31 characters
(lines 126-131); saving the workbook on leaving the writer block fails
when the loop wrote no sheet, and the generic handler at line 143 then
reports an error with no output.

Spreadsheet cells are modelled by `Cell` (a blank/NaN cell, a text cell,
or a numeric cell).  Tables are lists of rows in spreadsheet order; all
pandas operations used by the script preserve or determine order as
modelled below (`pd.melt` stacks columns in column order, a left merge
keeps left-row order with right matches in right order, and
`groupby` with its default `sort=True` sorts the group keys).
-/

set_option maxRecDepth 10000

/-- A spreadsheet cell as loaded by pandas: blank (NaN), text, or numeric. -/
inductive Cell where
  | blank : Cell
  | text : String → Cell
  | num : Int → Cell
deriving DecidableEq, Repr

/-- Semantics of `dropna`: a cell is dropped iff it is blank (NaN). -/
def Cell.isBlank : Cell → Bool
  | .blank => true
  | _ => false

/-- Equality test between a cell of the Items `Region` column and a melted
region label (a column name of the wide table, hence a Python `str`).
pandas merge keys match only when values are equal: a text cell matches the
label under exact, case-sensitive string equality; a numeric or blank cell
never equals a Python string. -/
def cellEqText : Cell → String → Bool
  | .text s, t => s == t
  | _, _ => false

/-- One row of the Items spreadsheet, restricted to the four columns the
script ever reads ('Item #', 'Model', 'VBU', 'Region'; the projection at
line 117 discards all others). -/
structure ItemRow where
  itemNum : Cell
  model : Cell
  vbu : Cell
  region : Cell
deriving DecidableEq, Repr

/-- The Items spreadsheet: its header (full column list) and its rows.
`columns` is what the validation at lines 97-98 inspects; `rows` carries
the cells of the four required columns. -/
structure ItemsTable where
  columns : List String
  rows : List ItemRow
deriving DecidableEq, Repr

/-- The `dtype={'VBU': str}` decode at line 93: the VBU column is read as text.
A text cell is kept verbatim; a numeric cell becomes its decimal string;
a blank cell stays blank (NaN). -/
def decodeVbu : Cell → Cell
  | .num n => .text (toString n)
  | c => c

/-- Loading of the Items table, `pd.read_excel(file1, dtype={'VBU': str})`
(line 93), modelled after parsing: every row's VBU cell is decoded as
text, all other cells kept. -/
def loadItems (t : ItemsTable) : List ItemRow :=
  t.rows.map (fun r => { r with vbu := decodeVbu r.vbu })

/-- The required column set of line 97,
`required_item_cols = {'Item #', 'Model', 'VBU', 'Region'}`. -/
def requiredItemCols : List String :=
  ["Item #", "Model", "VBU", "Region"]

/-- The subset check `required_item_cols.issubset(df_items.columns)`
(line 98). -/
def validateItems (cols : List String) : Bool :=
  requiredItemCols.all (fun c => cols.contains c)

/-- The wide Region Patches spreadsheet: one named column per region.
pandas pads shorter columns with NaN to a common length, so cells are
`Cell` with `Cell.blank` for the padding. -/
structure WideTable where
  cols : List (String × List Cell)
deriving DecidableEq, Repr

/-- The emptiness test `df_regions_wide.empty` (line 102): a DataFrame is
empty iff it has no
columns or no rows (all columns share pandas' common padded length). -/
def WideTable.isEmpty (w : WideTable) : Bool :=
  w.cols.isEmpty || w.cols.all (fun c => c.2.isEmpty)

/-- The reshape `pd.melt(df_regions_wide, var_name='Region',
value_name='Region patch code')` (line 108): stack the columns in column order, each cell becoming
one `(Region, Region patch code)` row, rows of a column in row order. -/
def melt (w : WideTable) : List (String × Cell) :=
  w.cols.flatMap (fun c => c.2.map (fun v => (c.1, v)))

/-- The dropna `df_regions_long.dropna(subset=['Region patch code'])`
(line 109) applied to the melt of the wide table: blank cells are dropped. -/
def regionsLong (w : WideTable) : List (String × Cell) :=
  (melt w).filter (fun e => !e.2.isBlank)

/-- One row of `df_merged`: the four item cells plus the `Region patch
code` column, which is `none` (NaN) for a left-merge row whose item
matched no region entry. -/
structure MergedRow where
  itemNum : Cell
  model : Cell
  vbu : Cell
  region : Cell
  patchCode : Option Cell
deriving DecidableEq, Repr

/-- The merged row produced when an item matches a long-form region entry. -/
def mkPaired (it : ItemRow) (e : String × Cell) : MergedRow :=
  ⟨it.itemNum, it.model, it.vbu, it.region, some e.2⟩

/-- The left merge `pd.merge(df_items, df_regions_long, on='Region',
how='left')` (line 113): every left (item) row in order; an item with matches yields
one row per matching region entry in the entries' order, an item with no
match yields a single row with NaN patch code. -/
def mergeLeft (items : List ItemRow) (long : List (String × Cell)) : List MergedRow :=
  items.flatMap (fun it =>
    let ms := long.filter (fun e => cellEqText it.region e.1)
    if ms.isEmpty then [⟨it.itemNum, it.model, it.vbu, it.region, none⟩]
    else ms.map (fun e => mkPaired it e))

/-- The dropna `df_merged.dropna(subset=['Region patch code'])` (line 114)
applied to the left merge: rows with NaN patch code (unmatched items) are dropped.
The projection at line 117 keeps the same five columns, so `pairedRows`
is also `output_df`. -/
def pairedRows (items : List ItemRow) (long : List (String × Cell)) : List MergedRow :=
  (mergeLeft items long).filter (fun r => r.patchCode.isSome)

/-- Lexicographic order on code points, as Python compares `str` values
(used by pandas when sorting the group keys). -/
def lexLe : List Char → List Char → Bool
  | [], _ => true
  | _ :: _, [] => false
  | a :: as, b :: bs =>
    if a.toNat < b.toNat then true
    else if b.toNat < a.toNat then false
    else lexLe as bs

/-- String comparison on code points (Python `str.__le__`). -/
def strLe (a b : String) : Bool := lexLe a.data b.data

/-- The grouping key of an output row: the value of its `Region` column.
Every row that survives the dropna at line 114 matched a wide-table
column name, so its `Region` cell is that text. -/
def keyOf (r : MergedRow) : String :=
  match r.region with
  | .text s => s
  | .num n => toString n
  | .blank => ""

/-- The distinct keys in first-occurrence order. -/
def uniqueKeys : List String → List String
  | [] => []
  | k :: ks => k :: (uniqueKeys ks).filter (fun x => x ≠ k)

/-- Insert a key into a lexicographically sorted key list. -/
def insertKey (k : String) : List String → List String
  | [] => [k]
  | x :: xs => if strLe k x then k :: x :: xs else x :: insertKey k xs

/-- Sort the group keys ascending (insertion sort); pandas `groupby` with
its default `sort=True` emits groups in ascending key order. -/
def sortKeys : List String → List String
  | [] => []
  | k :: ks => insertKey k (sortKeys ks)

/-- The grouping `output_df.groupby('Region')` (line 128): one group per
distinct key,
groups in ascending sorted key order, each group holding its rows in
their original order. -/
def groupbyRegion (rows : List MergedRow) : List (String × List MergedRow) :=
  (sortKeys (uniqueKeys (rows.map keyOf))).map
    (fun k => (k, rows.filter (fun r => keyOf r == k)))

/-- One output row after the per-sheet projection
`group_df[['VBU', 'Item #', 'Model', 'Region patch code']]` (line 129),
which drops the `Region` column. -/
structure FinalRow where
  vbu : Cell
  itemNum : Cell
  model : Cell
  patchCode : Option Cell
deriving DecidableEq, Repr

/-- The projection at line 129. -/
def projectFinal (r : MergedRow) : FinalRow :=
  ⟨r.vbu, r.itemNum, r.model, r.patchCode⟩

/-- Sheet naming, `sheet_name = str(region_name)[:31]` (line 130). -/
def sheetName (k : String) : String := k.take 31

/-- One sheet of the output workbook. -/
structure Sheet where
  name : String
  rows : List FinalRow
deriving DecidableEq, Repr

/-- One iteration of the export loop (lines 129-131): the sheet of one
group, named by the truncated group key, holding the projected rows. -/
def mkSheet (g : String × List MergedRow) : Sheet :=
  ⟨sheetName g.1, g.2.map projectFinal⟩

/-- The export loop at lines 127-131: one sheet per group, in group
order. -/
def writeWorkbook (rows : List MergedRow) : List Sheet :=
  (groupbyRegion rows).map mkSheet

/-- The error outcomes of the script: the two validation failures (lines
99 and 103), and `emptyWorkbookSave`, the failure of saving a workbook to
which the export loop wrote no sheet (pandas' openpyxl writer removes the
default sheet, so the save at the close of the writer block raises
IndexError, which the generic handler at line 143 reports with no
output).  `emptyResultSet` is named by the spec's error taxonomy; the
theorems below show the code never produces it. -/
inductive PipelineError where
  | missingColumns : PipelineError
  | emptyRegionTable : PipelineError
  | emptyResultSet : PipelineError
  | emptyWorkbookSave : PipelineError
deriving DecidableEq, Repr

/-- The save that happens when the `with pd.ExcelWriter(...)` block of
lines 127-131 exits: with no sheet written, openpyxl refuses to save the
workbook (IndexError, surfaced by the generic handler at line 143, which
shows an error and renders no download); with at least one sheet the
workbook is produced. -/
def saveWorkbook (sheets : List Sheet) : Except PipelineError (List Sheet) :=
  if sheets.isEmpty then .error .emptyWorkbookSave else .ok sheets

/-- The whole pipeline (lines 88-141): load, validate the Items columns
(`st.error` + `st.stop` at lines 99-100 halt with no output), reject an
empty wide table (lines 102-104), then melt, merge, drop, group and
export; closing the writer saves the workbook, which fails when the loop
wrote no sheet (reported by the generic handler at line 143). -/
def pipeline (t : ItemsTable) (w : WideTable) : Except PipelineError (List Sheet) :=
  let items := loadItems t
  if !validateItems t.columns then .error .missingColumns
  else if w.isEmpty then .error .emptyRegionTable
  else saveWorkbook (writeWorkbook (pairedRows items (regionsLong w)))

/-- Modelled from the spec: the cross-join pairing mode (spec §4.4,
"alternate mode") is not present in `src/main.py`, whose only pairing
strategy is the region-matched merge at line 113.  Per the spec, the
patch source is a flat single-column code list and every Item is paired
with every patch code regardless of region, i.e. the full Cartesian
product of the two sets, items in order, each item's codes in order. -/
def crossJoin (items : List ItemRow) (codes : List Cell) : List MergedRow :=
  items.flatMap (fun it =>
    codes.map (fun c => ⟨it.itemNum, it.model, it.vbu, it.region, some c⟩))

/-! ## Concrete fixtures used by witnesses and counterexamples -/

/-- A valid Items table with one East item whose VBU text is "00045". -/
def itemsA : ItemsTable :=
  ⟨["Item #", "Model", "VBU", "Region"],
   [⟨.num 1541187, .text ("1000008671"), .text ("00045"), .text ("East")⟩]⟩

/-- A wide region table with a single East column holding one code. -/
def wideA : WideTable := ⟨[("East", [.text ("AB")])]⟩

/-- A valid Items table whose single item has region "Atlantis". -/
def itemsAtlantis : ItemsTable :=
  ⟨["Item #", "Model", "VBU", "Region"],
   [⟨.num 1, .text ("M"), .text ("V"), .text ("Atlantis")⟩]⟩

/-- Items whose regions first occur in the order West, East. -/
def itemsWE : ItemsTable :=
  ⟨["Item #", "Model", "VBU", "Region"],
   [⟨.num 1, .text ("M1"), .text ("V1"), .text ("West")⟩,
    ⟨.num 2, .text ("M2"), .text ("V2"), .text ("East")⟩]⟩

/-- A wide table with an East column and a West column. -/
def wideEW : WideTable :=
  ⟨[("East", [.text ("AB")]), ("West", [.text ("HI")])]⟩

/-- The output of the pipeline on `itemsA`/`wideA`. -/
def sheetsA : List Sheet :=
  [⟨"East", [⟨.text ("00045"), .num 1541187, .text ("1000008671"), some (.text ("AB"))⟩]⟩]

/-- The paired rows of the West-then-East fixture. -/
def pairedWE : List MergedRow := pairedRows (loadItems itemsWE) (regionsLong wideEW)

/-! ## Helper lemmas -/

/-- Every row of `pairedRows` is `mkPaired it e` for a matching item and
long-form region entry, and conversely every matching pair contributes its
row. -/
theorem mem_pairedRows {items : List ItemRow} {long : List (String × Cell)}
    {m : MergedRow} :
    m ∈ pairedRows items long ↔
      ∃ it ∈ items, ∃ e ∈ long, cellEqText it.region e.1 = true ∧ m = mkPaired it e := by
  unfold pairedRows mergeLeft
  rw [List.mem_filter, List.mem_flatMap]
  constructor
  · rintro ⟨⟨it, hit, hm⟩, hsome⟩
    by_cases hE : (long.filter (fun e => cellEqText it.region e.1)).isEmpty
    · simp only [hE, if_pos] at hm
      simp only [List.mem_singleton] at hm
      subst hm
      simp at hsome
    · simp only [hE, if_neg, Bool.false_eq_true, not_false_iff] at hm
      rw [List.mem_map] at hm
      obtain ⟨e, he, rfl⟩ := hm
      rw [List.mem_filter] at he
      exact ⟨it, hit, e, he.1, he.2, rfl⟩
  · rintro ⟨it, hit, e, he, hpred, rfl⟩
    have hmem : e ∈ long.filter (fun e => cellEqText it.region e.1) :=
      List.mem_filter.mpr ⟨he, hpred⟩
    have hne : (long.filter (fun e => cellEqText it.region e.1)).isEmpty = false := by
      rcases h : (long.filter (fun e => cellEqText it.region e.1)).isEmpty with _ | _
      · exact h
      · rw [List.isEmpty_iff] at h
        rw [h] at hmem
        cases hmem
    refine ⟨⟨it, hit, ?_⟩, rfl⟩
    simp only [hne, Bool.false_eq_true, if_neg, not_false_iff]
    exact List.mem_map.mpr ⟨e, hmem, rfl⟩

/-- Every row of every sheet of the exported workbook is the projection of
one of the grouped rows. -/
theorem mem_workbook_rows {rows : List MergedRow} {s : Sheet} {r : FinalRow}
    (hs : s ∈ writeWorkbook rows) (hr : r ∈ s.rows) :
    ∃ m ∈ rows, r = projectFinal m := by
  unfold writeWorkbook groupbyRegion at hs
  rw [List.mem_map] at hs
  obtain ⟨g, hg, rfl⟩ := hs
  rw [List.mem_map] at hg
  obtain ⟨k, _, rfl⟩ := hg
  simp only [mkSheet] at hr
  rw [List.mem_map] at hr
  obtain ⟨m, hm, rfl⟩ := hr
  rw [List.mem_filter] at hm
  exact ⟨m, hm.1, rfl⟩

/-- A successful pipeline run returns exactly the workbook exported from
the merged-and-filtered rows. -/
theorem pipeline_ok {t : ItemsTable} {w : WideTable} {sheets : List Sheet}
    (h : pipeline t w = .ok sheets) :
    sheets = writeWorkbook (pairedRows (loadItems t) (regionsLong w)) := by
  unfold pipeline saveWorkbook at h
  by_cases hv : validateItems t.columns
  · by_cases hw : w.isEmpty
    · simp [hv, hw] at h
    · by_cases hE : (writeWorkbook (pairedRows (loadItems t) (regionsLong w))).isEmpty
      · simp [hv, hw, hE] at h
      · simp [hv, hw, hE] at h
        exact h.symm
  · simp [hv] at h

/-- The column validation succeeds iff every required column is present. -/
theorem validateItems_iff {cols : List String} :
    validateItems cols = true ↔ ∀ c ∈ requiredItemCols, c ∈ cols := by
  unfold validateItems
  rw [List.all_eq_true]
  constructor
  · intro h c hc
    exact List.elem_iff.mp (h c hc)
  · intro h c hc
    exact List.elem_iff.mpr (h c hc)

/-- Pushing the blank-dropping filter through the melt of a column list. -/
theorem filter_flatMap_expand (cols : List (String × List Cell)) :
    ((cols.flatMap (fun c => c.2.map (fun v => (c.1, v)))).filter (fun e => !e.2.isBlank))
      = cols.flatMap (fun c => (c.2.filter (fun v => !v.isBlank)).map (fun v => (c.1, v))) := by
  induction cols with
  | nil => rfl
  | cons c cs ih =>
    rw [List.flatMap_cons, List.flatMap_cons, List.filter_append, ih, List.filter_map]
    rfl

/-! ## Claim theorems -/

/-- C1: a `PairedRecord` for item `it` and expanded entry `e` is in the
merged-and-filtered result whenever `it`'s Region cell equals `e`'s region
label under exact case-sensitive string equality, and every row of the
result arises from such a matching pair; in particular items whose region
matches no entry contribute no row. -/
theorem regionMatchedJoin_correct (items : List ItemRow) (w : WideTable) :
    (∀ it ∈ items, ∀ e ∈ regionsLong w, cellEqText it.region e.1 = true →
        mkPaired it e ∈ pairedRows items (regionsLong w))
    ∧ (∀ m ∈ pairedRows items (regionsLong w),
        ∃ it ∈ items, ∃ e ∈ regionsLong w,
          cellEqText it.region e.1 = true ∧ m = mkPaired it e) := by
  constructor
  · intro it hit e he hpred
    exact mem_pairedRows.mpr ⟨it, hit, e, he, hpred, rfl⟩
  · intro m hm
    exact mem_pairedRows.mp hm

/-- Witness for C1 at a concrete matching item and entry. -/
theorem regionMatchedJoin_correct_witness :
    mkPaired ⟨.num 1541187, .text ("1000008671"), .text ("00045"), .text ("East")⟩
        ("East", .text ("AB"))
      ∈ pairedRows [⟨.num 1541187, .text ("1000008671"), .text ("00045"), .text ("East")⟩]
          (regionsLong wideA) :=
  (regionMatchedJoin_correct
      [⟨.num 1541187, .text ("1000008671"), .text ("00045"), .text ("East")⟩] wideA).1
    _ (List.mem_singleton.mpr rfl) ("East", .text ("AB")) (by decide) (by decide)

/-- C2: the cross-join pairing mode (modelled from the spec) pairs every
item with every patch code regardless of region, producing exactly
n x m records. -/
theorem crossJoin_complete (items : List ItemRow) (codes : List Cell) :
    (crossJoin items codes).length = items.length * codes.length
    ∧ ∀ it ∈ items, ∀ c ∈ codes,
        (⟨it.itemNum, it.model, it.vbu, it.region, some c⟩ : MergedRow)
          ∈ crossJoin items codes := by
  constructor
  · induction items with
    | nil => simp [crossJoin]
    | cons it its ih =>
      have hstep : crossJoin (it :: its) codes
          = codes.map (fun c =>
              (⟨it.itemNum, it.model, it.vbu, it.region, some c⟩ : MergedRow))
            ++ crossJoin its codes := by
        unfold crossJoin
        rw [List.flatMap_cons]
      rw [hstep, List.length_append, List.length_map, ih, List.length_cons, Nat.succ_mul]
      omega
  · intro it hit c hc
    unfold crossJoin
    rw [List.mem_flatMap]
    exact ⟨it, hit, List.mem_map.mpr ⟨c, hc, rfl⟩⟩

/-- Witness for C2 at a concrete item and code. -/
theorem crossJoin_complete_witness :
    (⟨.num 1, .text ("M"), .text ("V"), .text ("East"), some (.text ("AB"))⟩ : MergedRow)
      ∈ crossJoin [⟨.num 1, .text ("M"), .text ("V"), .text ("East")⟩] [.text ("AB")] :=
  (crossJoin_complete [⟨.num 1, .text ("M"), .text ("V"), .text ("East")⟩] [.text ("AB")]).2
    _ (List.mem_singleton.mpr rfl) _ (List.mem_singleton.mpr rfl)

/-- C3: the wide-to-long expansion emits, for each column in order, one
`(column name, cell)` entry per non-blank cell in row order, and blank
padding cells yield no entry (and no error: the expansion is total). -/
theorem wideExpansion_drops_blanks (w : WideTable) :
    regionsLong w
      = w.cols.flatMap (fun c =>
          (c.2.filter (fun v => !v.isBlank)).map (fun v => (c.1, v))) := by
  unfold regionsLong melt
  exact filter_flatMap_expand w.cols

/-- C4: every row of every sheet of a successful run carries the VBU cell
of one of the input items, decoded by the text decode of
`dtype={'VBU': str}`; that decode keeps a text cell such as "00045"
verbatim, never numerically reinterpreting it. -/
theorem vbu_text_preserved :
    (∀ (t : ItemsTable) (w : WideTable) (sheets : List Sheet),
        pipeline t w = .ok sheets →
        ∀ s ∈ sheets, ∀ r ∈ s.rows, ∃ row ∈ t.rows, r.vbu = decodeVbu row.vbu)
    ∧ ∀ s : String, decodeVbu (.text s) = .text s := by
  constructor
  · intro t w sheets hok s hs r hr
    rw [pipeline_ok hok] at hs
    obtain ⟨m, hm, rfl⟩ := mem_workbook_rows hs hr
    obtain ⟨it, hit, e, he, hpred, rfl⟩ := mem_pairedRows.mp hm
    unfold loadItems at hit
    rw [List.mem_map] at hit
    obtain ⟨row, hrow, rfl⟩ := hit
    exact ⟨row, hrow, rfl⟩
  · intro s
    rfl

/-- Witness for C4 on a concrete successful run whose item has VBU "00045". -/
theorem vbu_text_preserved_witness :
    ∃ row ∈ itemsA.rows,
      (⟨.text ("00045"), .num 1541187, .text ("1000008671"),
        some (.text ("AB"))⟩ : FinalRow).vbu = decodeVbu row.vbu :=
  vbu_text_preserved.1 itemsA wideA sheetsA rfl _ (List.mem_singleton.mpr rfl)
    _ (List.mem_singleton.mpr rfl)

/-- C5: the pipeline fails with the missing-columns error iff the Items
column set is not a superset of the four required columns; the `Except`
shape carries no output on that failure, and the check precedes every
transformation in `pipeline`. -/
theorem itemsSchema_validation (t : ItemsTable) (w : WideTable) :
    pipeline t w = .error .missingColumns
      ↔ ¬ ∀ c ∈ requiredItemCols, c ∈ t.columns := by
  rw [← validateItems_iff]
  by_cases hv : validateItems t.columns
  · by_cases hw : w.isEmpty
    · simp [pipeline, hv, hw]
    · by_cases hE : (writeWorkbook (pairedRows (loadItems t) (regionsLong w))).isEmpty <;>
        simp [pipeline, saveWorkbook, hv, hw, hE]
  · simp [pipeline, hv]

/-- C9: the pipeline output is a pure function of the two inputs: two runs
on identical inputs return identical results. -/
theorem pipeline_deterministic (t₁ : ItemsTable) (w₁ : WideTable)
    (t₂ : ItemsTable) (w₂ : WideTable) (ht : t₁ = t₂) (hw : w₁ = w₂) :
    pipeline t₁ w₁ = pipeline t₂ w₂ := by
  subst ht
  subst hw
  rfl

/-- Witness for C9 at a concrete pair of runs. -/
theorem pipeline_deterministic_witness : pipeline itemsA wideA = pipeline itemsA wideA :=
  pipeline_deterministic itemsA wideA itemsA wideA rfl rfl

/-- C10: every row written to any output sheet has a patch code that is
present (the merge dropna) and non-blank (the expansion dropna), so no
sheet contains a blank 'Region patch code' value. -/
theorem no_blank_patchCode (t : ItemsTable) (w : WideTable) (sheets : List Sheet)
    (hok : pipeline t w = .ok sheets) :
    ∀ s ∈ sheets, ∀ r ∈ s.rows, ∃ c, r.patchCode = some c ∧ c.isBlank = false := by
  intro s hs r hr
  rw [pipeline_ok hok] at hs
  obtain ⟨m, hm, rfl⟩ := mem_workbook_rows hs hr
  obtain ⟨it, hit, e, he, hpred, rfl⟩ := mem_pairedRows.mp hm
  refine ⟨e.2, rfl, ?_⟩
  unfold regionsLong at he
  rw [List.mem_filter] at he
  simpa using he.2

/-- Witness for C10 on a concrete successful run. -/
theorem no_blank_patchCode_witness :
    ∃ c, (⟨.text ("00045"), .num 1541187, .text ("1000008671"),
            some (.text ("AB"))⟩ : FinalRow).patchCode = some c ∧ c.isBlank = false :=
  no_blank_patchCode itemsA wideA sheetsA rfl _ (List.mem_singleton.mpr rfl)
    _ (List.mem_singleton.mpr rfl)

/-- C6 counterexample: on a valid input pair whose pairing leaves zero
records, the export loop writes no sheet, so the save of the sheetless
workbook fails and the generic handler at line 143 reports an error with
no workbook; the failure is not an `EmptyResultSet` soft warning. -/
theorem emptyResult_cex :
    pairedRows (loadItems itemsAtlantis) (regionsLong wideA) = []
    ∧ pipeline itemsAtlantis wideA = .error .emptyWorkbookSave
    ∧ (Except.error PipelineError.emptyWorkbookSave : Except PipelineError (List Sheet))
        ≠ .error .emptyResultSet :=
  ⟨by decide, rfl, by simp⟩

/-- C6 amended: when validation passes and pairing leaves zero records,
the export loop writes no sheet and saving the sheetless workbook raises,
reported by the generic exception handler as a hard failure with no
workbook output; no EmptyResultSet soft warning is ever produced. -/
theorem emptyResult_amended (t : ItemsTable) (w : WideTable)
    (hv : validateItems t.columns = true) (hw : w.isEmpty = false)
    (h0 : pairedRows (loadItems t) (regionsLong w) = []) :
    pipeline t w = .error .emptyWorkbookSave
    ∧ pipeline t w ≠ .error .emptyResultSet := by
  have hwb : writeWorkbook (pairedRows (loadItems t) (regionsLong w)) = [] := by
    rw [h0]
    rfl
  constructor
  · simp [pipeline, saveWorkbook, hv, hw, hwb]
  · simp [pipeline, saveWorkbook, hv, hw, hwb]

/-- Witness for the amended C6 at a concrete no-match input. -/
theorem emptyResult_amended_witness :
    pipeline itemsAtlantis wideA = .error .emptyWorkbookSave
    ∧ pipeline itemsAtlantis wideA ≠ .error .emptyResultSet :=
  emptyResult_amended itemsAtlantis wideA (by decide) (by decide) (by decide)

/-- C7 counterexample: on a run whose paired records see region "West"
before "East", the workbook's sheets come out in sorted order
["East", "West"], not in the first-seen order ["West", "East"]. -/
theorem groupOrder_cex :
    pipeline itemsWE wideEW = .ok (writeWorkbook pairedWE)
    ∧ (writeWorkbook pairedWE).map Sheet.name = ["East", "West"]
    ∧ uniqueKeys (pairedWE.map keyOf) = ["West", "East"]
    ∧ (writeWorkbook pairedWE).map Sheet.name ≠ uniqueKeys (pairedWE.map keyOf) :=
  ⟨rfl, by decide, by decide, by decide⟩

/-- Totality of the code-point lexicographic order. -/
theorem lexLe_total (a b : List Char) : lexLe a b = true ∨ lexLe b a = true := by
  induction a generalizing b with
  | nil => left; rfl
  | cons x xs ih =>
    cases b with
    | nil => right; rfl
    | cons y ys =>
      by_cases h1 : x.toNat < y.toNat
      · left
        simp [lexLe, h1]
      · by_cases h2 : y.toNat < x.toNat
        · right
          simp [lexLe, h1, h2]
        · rcases ih ys with h | h
          · left
            simp [lexLe, h1, h2, h]
          · right
            simp [lexLe, h1, h2, h]

/-- Totality of `strLe`. -/
theorem strLe_total (a b : String) : strLe a b = true ∨ strLe b a = true :=
  lexLe_total a.data b.data

/-- The head of an insertion is the new key or the old head. -/
theorem head_insertKey (k : String) (l : List String) :
    (insertKey k l).head? = some k ∨ (insertKey k l).head? = l.head? := by
  cases l with
  | nil => left; rfl
  | cons x xs =>
    by_cases h : strLe k x = true
    · left
      simp [insertKey, h]
    · right
      simp [insertKey, h]

/-- Insertion into a `strLe`-sorted list keeps it sorted. -/
theorem chain'_insertKey (k : String) (l : List String)
    (h : List.Chain' (fun a b => strLe a b = true) l) :
    List.Chain' (fun a b => strLe a b = true) (insertKey k l) := by
  induction l with
  | nil => simp [insertKey]
  | cons x xs ih =>
    by_cases hkx : strLe k x = true
    · simp only [insertKey, hkx, if_true]
      exact List.chain'_cons.mpr ⟨hkx, h⟩
    · simp only [insertKey, hkx, if_false]
      have hxs : List.Chain' (fun a b => strLe a b = true) xs :=
        (List.chain'_cons'.mp h).2
      have hhead : ∀ y ∈ xs.head?, strLe x y = true := (List.chain'_cons'.mp h).1
      refine List.chain'_cons'.mpr ⟨?_, ih hxs⟩
      intro y hy
      rcases head_insertKey k xs with hcase | hcase
      · rw [hcase] at hy
        simp only [Option.mem_def, Option.some.injEq] at hy
        subst hy
        rcases strLe_total k x with h1 | h1
        · exact absurd h1 hkx
        · exact h1
      · rw [hcase] at hy
        exact hhead y hy

/-- The key sort produces a `strLe`-sorted list. -/
theorem chain'_sortKeys (l : List String) :
    List.Chain' (fun a b => strLe a b = true) (sortKeys l) := by
  induction l with
  | nil => simp [sortKeys]
  | cons k ks ih =>
    simp only [sortKeys]
    exact chain'_insertKey k (sortKeys ks) ih

/-- C7 amended: the groups of the export step appear in ascending
code-point order of the group key (the pandas `groupby` default sort),
not in first-seen order. -/
theorem sheetGroups_sorted (rows : List MergedRow) :
    List.Chain' (fun g g' => strLe g.1 g'.1 = true) (groupbyRegion rows) := by
  unfold groupbyRegion
  rw [List.chain'_map]
  exact chain'_sortKeys (uniqueKeys (rows.map keyOf))

/-- C8: every sheet of the workbook is named by its group key truncated to
its first 31 characters with no other sanitization, and a group key of
length 40 yields a sheet name that is exactly its first 31 characters. -/
theorem sheetName_truncates :
    (∀ rows : List MergedRow, ∀ s ∈ writeWorkbook rows,
        ∃ g ∈ groupbyRegion rows, s.name = sheetName g.1)
    ∧ ∀ k : String, sheetName k = k.take 31
        ∧ (k.length = 40 → (sheetName k).length = 31) := by
  constructor
  · intro rows s hs
    unfold writeWorkbook at hs
    rw [List.mem_map] at hs
    obtain ⟨g, hg, rfl⟩ := hs
    refine ⟨g, hg, ?_⟩
    simp only [mkSheet]
  · intro k
    refine ⟨rfl, fun hk => ?_⟩
    show (sheetName k).length = 31
    unfold sheetName
    rw [String.take_eq]
    show (k.data.take 31).length = 31
    rw [List.length_take, String.length_data, hk]
    decide

/-- Witness for C8 at a concrete 40-character group key. -/
theorem sheetName_truncates_witness :
    (sheetName ("abcdefghijklmnopqrstuvwxyzabcdefghijklmn")).length = 31 :=
  (sheetName_truncates.2 ("abcdefghijklmnopqrstuvwxyzabcdefghijklmn")).2 (by decide)
